import Mathlib

/-!
# Verification of the paint-server product CRUD backend

Shallow embedding of `src/server.js`. That file contains two variants of the
same Express server, separated by a document separator:

* the *first* variant (lines 1–154): no `fs` import, `GET /products` returns
  the stored records verbatim, `DELETE /products/:id` uses
  `findByIdAndDelete` and never touches the image file;
* the *second* variant (lines 155–326): imports `fs`, `GET /products` rewrites
  each `image` to an absolute URL, `DELETE /products/:id` first fetches the
  record, best-effort-unlinks its image file, then deletes the record.

Definitions suffixed `1` embed the first variant's handlers, suffixed `2` the
second variant's. Shared infrastructure (multer storage, the Mongoose model
operations) is identical in both variants and embedded once.

Mongo documents are records in a list; the uploads directory is a list of
relative paths `/uploads/<name>`. `Date.now()` and the generated `_id` enter
the handlers as explicit parameters. JSON numbers are modelled as `ℚ`
(`price` is only passed through, never computed with).
-/

namespace PaintServer

/-- A product document, per the Mongoose schema: `name`, `price`,
`description` required, `image` an optional relative URL string. `id` is the
generated `_id`. -/
structure Product where
  id : Nat
  name : String
  price : ℚ
  description : String
  image : Option String
  deriving Repr, DecidableEq

/-- The uploaded file as multer sees it: its `originalname` and the value of
`Date.now()` at storage time. -/
structure ReqFile where
  originalname : String
  timestamp : Nat
  deriving Repr, DecidableEq

/-- The parsed form body (`req.body`). A field the client did not send is
`none` (JS `undefined`); Mongoose strips `undefined` values from updates. -/
structure Body where
  name : Option String
  price : Option ℚ
  description : Option String
  deriving Repr, DecidableEq

/-- Observable HTTP outcome of one handler: `ok` with a JSON body,
`notFound` with the 404 message, or a 500 error response. -/
inductive Response (α : Type) where
  | ok (body : α)
  | notFound (message : String)
  | serverError
  deriving Repr, DecidableEq

/-- Server-side state a handler can touch: the `products` collection and the
set of files in the uploads directory (as their public relative paths). -/
structure ServerState where
  store : List Product
  files : List String
  deriving Repr, DecidableEq

/-- multer `filename`: `` `${Date.now()}-${file.originalname}` ``. -/
def genFilename (f : ReqFile) : String :=
  toString f.timestamp ++ "-" ++ f.originalname

/-- The public relative path of an uploaded file:
`` `/uploads/${req.file.filename}` ``. -/
def uploadPath (f : ReqFile) : String :=
  "/uploads/" ++ genFilename f

/-- Effect of the `upload.single("image")` middleware on the uploads
directory: multer writes the file to disk before the route handler runs. -/
def storeFile (file : Option ReqFile) (files : List String) : List String :=
  match file with
  | some f => uploadPath f :: files
  | none => files

/-- Embeds `productModel.findById(id)`. -/
def findById (store : List Product) (id : Nat) : Option Product :=
  store.find? (fun p => p.id == id)

/-- Mongoose `required: true` for a `String` path: the value must be present
and non-empty. -/
def requiredString : Option String → Bool
  | some s => !s.isEmpty
  | none => false

/-- Validation performed by `newProduct.save()`: all three required schema
paths must be satisfied, otherwise save rejects (handler responds 500). -/
def validCreate (b : Body) : Bool :=
  requiredString b.name && b.price.isSome && requiredString b.description

/-- Builds `` `${req.protocol}://${req.get('host')}${relativePath}` ``. -/
def absUrl (protocol host rel : String) : String :=
  protocol ++ "://" ++ host ++ rel

/-- The per-record rewrite done by the second variant before responding:
`{...product._doc, image: product.image ? abs : null}`. -/
def rewriteAbs (protocol host : String) (p : Product) : Product :=
  { p with image := p.image.map (absUrl protocol host) }

/-- Handler for `GET /products`, first variant:
`res.status(200).json(products)` with the documents exactly as stored. -/
def getProducts1 (store : List Product) : Response (List Product) :=
  Response.ok store

/-- Handler for `GET /products`, second variant: maps every document through
the absolute-URL rewrite before responding. -/
def getProducts2 (protocol host : String) (store : List Product) :
    Response (List Product) :=
  Response.ok (store.map (rewriteAbs protocol host))

/-- Handler for `POST /products` (the create handler is line-for-line the same in both
variants, up to the shape of the 500 error body): multer stores the file if
present, `imageUrl` is `/uploads/<filename>` or `null`, and `save()` either
persists the new document (200 with it) or rejects (500). The `getD`
defaults are never reached on the success path, where `validCreate` forces
all three body fields to be present. -/
def postProducts (s : ServerState) (b : Body) (file : Option ReqFile)
    (newId : Nat) : ServerState × Response Product :=
  let files := storeFile file s.files
  let imageUrl := file.map uploadPath
  if validCreate b then
    let r : Product :=
      { id := newId, name := b.name.getD "", price := b.price.getD 0,
        description := b.description.getD "", image := imageUrl }
    ({ store := s.store ++ [r], files := files }, Response.ok r)
  else
    ({ s with files := files }, Response.serverError)

/-- The update document `updatedData` applied to an existing record by
`findByIdAndUpdate`: an update without operators is a `$set`, Mongoose strips
`undefined` fields, so each absent body field leaves the stored value alone;
`image` is only in `updatedData` when a new file arrived (`newImage`). -/
def mergeUpdate (b : Body) (newImage : Option String) (p : Product) : Product :=
  { id := p.id
    name := b.name.getD p.name
    price := b.price.getD p.price
    description := b.description.getD p.description
    image := match newImage with
             | some u => some u
             | none => p.image }

/-- Embeds `productModel.findByIdAndUpdate(id, upd, {new: true})`: returns the
collection after the update together with the updated document, or `none`
when no document has that id (nothing is created: no `upsert`). -/
def findByIdAndUpdate (store : List Product) (id : Nat)
    (upd : Product → Product) : List Product × Option Product :=
  match store.find? (fun p => p.id == id) with
  | none => (store, none)
  | some p =>
      (store.map (fun q => if q.id == id then upd q else q), some (upd p))

/-- Handler for `PUT /products/:id`, first variant. multer stores any new file first.
When a file arrived and `findById` finds a record with an existing image, the
handler reaches `fs.unlink` — but this variant never imports `fs`, so a
`ReferenceError` is thrown, caught by the surrounding try/catch, and the
handler answers 500 without running `findByIdAndUpdate`. All other paths run
the update and answer 200 / 404. -/
def putProducts1 (s : ServerState) (id : Nat) (b : Body)
    (file : Option ReqFile) : ServerState × Response Product :=
  let files := storeFile file s.files
  match file with
  | some f =>
      match findById s.store id with
      | some p =>
          if p.image.isSome then
            ({ store := s.store, files := files }, Response.serverError)
          else
            match findByIdAndUpdate s.store id
                (mergeUpdate b (some (uploadPath f))) with
            | (store', none) =>
                ({ store := store', files := files },
                 Response.notFound "Product not found")
            | (store', some u) =>
                ({ store := store', files := files }, Response.ok u)
      | none =>
          match findByIdAndUpdate s.store id
              (mergeUpdate b (some (uploadPath f))) with
          | (store', none) =>
              ({ store := store', files := files },
               Response.notFound "Product not found")
          | (store', some u) =>
              ({ store := store', files := files }, Response.ok u)
  | none =>
      match findByIdAndUpdate s.store id (mergeUpdate b none) with
      | (store', none) =>
          ({ store := store', files := files },
           Response.notFound "Product not found")
      | (store', some u) =>
          ({ store := store', files := files }, Response.ok u)

/-- Handler for `PUT /products/:id`, second variant. multer stores any new file; when a
file arrived and the record has an old image, `fs.unlink` best-effort-removes
the old file (an unlink error is only logged, so the erase is a no-op when the
file is absent); `findByIdAndUpdate` then applies `updatedData`; 404 when the
id is unknown, else 200 with the updated document carrying an absolute image
URL. -/
def putProducts2 (protocol host : String) (s : ServerState) (id : Nat)
    (b : Body) (file : Option ReqFile) : ServerState × Response Product :=
  let files0 := storeFile file s.files
  let cleaned :=
    match file with
    | some _ =>
        match findById s.store id with
        | some p =>
            match p.image with
            | some old => files0.erase old
            | none => files0
        | none => files0
    | none => files0
  let newImage := file.map uploadPath
  match findByIdAndUpdate s.store id (mergeUpdate b newImage) with
  | (store', none) =>
      ({ store := store', files := cleaned },
       Response.notFound "Product not found")
  | (store', some u) =>
      ({ store := store', files := cleaned },
       Response.ok { u with image := u.image.map (absUrl protocol host) })

/-- Handler for `DELETE /products/:id`, first variant: `findByIdAndDelete` removes the
document (404 when absent); the uploads directory is never touched. -/
def deleteProducts1 (s : ServerState) (id : Nat) :
    ServerState × Response String :=
  match findById s.store id with
  | none => (s, Response.notFound "Product not found")
  | some _ =>
      ({ store := s.store.filter (fun q => q.id != id), files := s.files },
       Response.ok "Product deleted successfully")

/-- Handler for `DELETE /products/:id`, second variant: fetch the record (404 when
absent), best-effort-unlink its image file when it has one, then
`findByIdAndDelete`. -/
def deleteProducts2 (s : ServerState) (id : Nat) :
    ServerState × Response String :=
  match findById s.store id with
  | none => (s, Response.notFound "Product not found")
  | some p =>
      let files' :=
        match p.image with
        | some img => s.files.erase img
        | none => s.files
      ({ store := s.store.filter (fun q => q.id != id), files := files' },
       Response.ok "Product deleted successfully")

/-! Concrete sample data shared by the witnesses and counterexamples. -/

/-- A stored record that has an image. -/
def sampleImaged : Product :=
  { id := 1, name := "Pen", price := 2, description := "Blue ink",
    image := some "/uploads/a.png" }

/-- A stored record with no image. -/
def samplePlain : Product :=
  { id := 1, name := "Pen", price := 2, description := "Blue ink",
    image := none }

/-- A concrete form body with all three fields present. -/
def sampleBody : Body :=
  { name := some "Marker", price := some 3, description := some "Red ink" }

/-- A concrete upload. -/
def sampleFile : ReqFile :=
  { originalname := "b.png", timestamp := 5 }

/-! Helper lemmas about the embedded operations. -/

/-- When no record has the id, `findByIdAndUpdate` changes nothing and
returns no document. -/
theorem findByIdAndUpdate_none (store : List Product) (id : Nat)
    (upd : Product → Product) (h : findById store id = none) :
    findByIdAndUpdate store id upd = (store, none) := by
  have h' : store.find? (fun p => p.id == id) = none := h
  unfold findByIdAndUpdate
  rw [h']

/-- C5: `DELETE /products/:id` with an unknown id answers 404 with message
"Product not found" and leaves the whole state unchanged, in both variants. -/
theorem delete_unknown_id_404 (s : ServerState) (id : Nat)
    (h : findById s.store id = none) :
    deleteProducts1 s id = (s, Response.notFound "Product not found") ∧
    deleteProducts2 s id = (s, Response.notFound "Product not found") := by
  unfold deleteProducts1 deleteProducts2
  rw [h]
  exact ⟨rfl, rfl⟩

/-- Witness for C5 at an empty store. -/
theorem delete_unknown_id_404_witness :
    findById ([] : List Product) 7 = none ∧
    deleteProducts1 ⟨[], []⟩ 7 = (⟨[], []⟩, Response.notFound "Product not found") :=
  ⟨rfl, (delete_unknown_id_404 ⟨[], []⟩ 7 rfl).1⟩

/-- C6: `POST /products` with valid fields and no file answers 200 with the
created record appended to the store, and that record's `image` is null. -/
theorem post_no_file_null_image (s : ServerState) (b : Body) (newId : Nat)
    (h : validCreate b = true) :
    ∃ r, postProducts s b none newId =
        ({ store := s.store ++ [r], files := s.files }, Response.ok r) ∧
      r.image = none ∧ r.id = newId ∧ r.name = b.name.getD "" ∧
      r.price = b.price.getD 0 ∧ r.description = b.description.getD "" := by
  refine ⟨{ id := newId, name := b.name.getD "", price := b.price.getD 0,
            description := b.description.getD "", image := none },
          ?_, rfl, rfl, rfl, rfl, rfl⟩
  simp [postProducts, h, storeFile]

/-- Witness for C6 on the spec's Pen scenario. -/
theorem post_no_file_null_image_witness :
    validCreate { name := some "Pen", price := some (3/2 : ℚ),
                  description := some "Blue ink" } = true ∧
    ∃ r, postProducts ⟨[], []⟩
          { name := some "Pen", price := some (3/2 : ℚ),
            description := some "Blue ink" } none 1 =
        ({ store := ([] : List Product) ++ [r], files := [] }, Response.ok r) ∧
      r.image = none ∧ r.id = 1 ∧ r.name = (some "Pen").getD "" ∧
      r.price = (some (3/2 : ℚ)).getD 0 ∧
      r.description = (some "Blue ink").getD "" :=
  ⟨rfl, post_no_file_null_image ⟨[], []⟩
    { name := some "Pen", price := some (3/2 : ℚ),
      description := some "Blue ink" } 1 rfl⟩

/-- C7: `POST /products` with a file creates a record whose `image` is the
upload prefix `/uploads/` followed by the generated
`<timestamp>-<originalname>` filename, and the stored file is present in the
uploads directory. -/
theorem post_with_file_image_path (s : ServerState) (b : Body) (f : ReqFile)
    (newId : Nat) (h : validCreate b = true) :
    ∃ r, (postProducts s b (some f) newId).2 = Response.ok r ∧
      (∃ rest, r.image = some ("/uploads/" ++ rest) ∧
        rest = toString f.timestamp ++ "-" ++ f.originalname) ∧
      uploadPath f ∈ (postProducts s b (some f) newId).1.files := by
  refine ⟨{ id := newId, name := b.name.getD "", price := b.price.getD 0,
            description := b.description.getD "",
            image := some (uploadPath f) },
          ?_, ⟨genFilename f, rfl, rfl⟩, ?_⟩
  · simp [postProducts, h]
  · simp [postProducts, h, storeFile]

/-- Witness for C7 with a concrete upload. -/
theorem post_with_file_image_path_witness :
    validCreate sampleBody = true ∧
    ∃ r, (postProducts ⟨[], []⟩ sampleBody (some sampleFile) 1).2
          = Response.ok r ∧
      (∃ rest, r.image = some ("/uploads/" ++ rest) ∧
        rest = toString sampleFile.timestamp ++ "-" ++ sampleFile.originalname) ∧
      uploadPath sampleFile ∈
        (postProducts ⟨[], []⟩ sampleBody (some sampleFile) 1).1.files :=
  ⟨rfl, post_with_file_image_path ⟨[], []⟩ sampleBody sampleFile 1 rfl⟩

/-- C4: `PUT /products/:id` with an unknown id answers 404 and creates no
record (the stored collection is unchanged), in both variants, with or
without a file. -/
theorem put_unknown_id_404_no_create (protocol host : String)
    (s : ServerState) (id : Nat) (b : Body) (file : Option ReqFile)
    (h : findById s.store id = none) :
    (putProducts1 s id b file).2 = Response.notFound "Product not found" ∧
    (putProducts1 s id b file).1.store = s.store ∧
    (putProducts2 protocol host s id b file).2 =
      Response.notFound "Product not found" ∧
    (putProducts2 protocol host s id b file).1.store = s.store := by
  cases file with
  | none =>
      have h0 := findByIdAndUpdate_none s.store id (mergeUpdate b none) h
      simp [putProducts1, putProducts2, h, h0]
  | some f =>
      have h0 := findByIdAndUpdate_none s.store id
        (mergeUpdate b (some (uploadPath f))) h
      simp [putProducts1, putProducts2, h, h0]

/-- Witness for C4 at an empty store with an upload. -/
theorem put_unknown_id_404_no_create_witness :
    findById ([] : List Product) 7 = none ∧
    (putProducts2 "http" "localhost:3000" ⟨[], []⟩ 7 sampleBody
        (some sampleFile)).2 = Response.notFound "Product not found" :=
  ⟨rfl, (put_unknown_id_404_no_create "http" "localhost:3000" ⟨[], []⟩ 7
    sampleBody (some sampleFile) rfl).2.2.1⟩

/-- When a record with the id exists, `findByIdAndUpdate` rewrites exactly
that record in the collection and returns its updated form. -/
theorem findByIdAndUpdate_some (store : List Product) (id : Nat)
    (upd : Product → Product) (p : Product) (h : findById store id = some p) :
    findByIdAndUpdate store id upd =
      (store.map (fun q => if q.id == id then upd q else q), some (upd p)) := by
  have h' : store.find? (fun q => q.id == id) = some p := h
  unfold findByIdAndUpdate
  rw [h']

/-- C8: a `PUT /products/:id` without a file, aimed at an existing record,
merges exactly the provided body fields into the record and leaves `image`
untouched; other records are untouched as well; no file is stored or
removed. The first variant answers with the raw updated record, the second
with its absolute-URL rewrite. -/
theorem put_no_file_merges_and_keeps_image (protocol host : String)
    (s : ServerState) (id : Nat) (b : Body) (p : Product)
    (h : findById s.store id = some p) :
    ∃ u,
      (putProducts1 s id b none).2 = Response.ok u ∧
      (putProducts2 protocol host s id b none).2 =
        Response.ok { u with image := u.image.map (absUrl protocol host) } ∧
      u.id = p.id ∧ u.image = p.image ∧
      u.name = b.name.getD p.name ∧ u.price = b.price.getD p.price ∧
      u.description = b.description.getD p.description ∧
      (putProducts2 protocol host s id b none).1.files = s.files ∧
      u ∈ (putProducts2 protocol host s id b none).1.store ∧
      ∀ q ∈ s.store, q.id ≠ id →
        q ∈ (putProducts2 protocol host s id b none).1.store := by
  have h' : s.store.find? (fun q => q.id == id) = some p := h
  have h2 := findByIdAndUpdate_some s.store id (mergeUpdate b none) p h
  have hmem : p ∈ s.store := List.mem_of_find?_eq_some h'
  have hpid : (p.id == id) = true := by simpa using List.find?_some h'
  have hstore : (putProducts2 protocol host s id b none).1.store
      = s.store.map (fun q => if q.id == id then mergeUpdate b none q else q) := by
    simp [putProducts2, h2]
  refine ⟨mergeUpdate b none p, ?_, ?_, rfl, rfl, rfl, rfl, rfl, ?_, ?_, ?_⟩
  · simp [putProducts1, h2]
  · simp [putProducts2, h2]
  · simp [putProducts2, h2, storeFile]
  · rw [hstore]
    have hfix : (fun q => if q.id == id then mergeUpdate b none q else q) p
        = mergeUpdate b none p := by simp [hpid]
    rw [← hfix]
    exact List.mem_map_of_mem _ hmem
  · intro q hq hne
    rw [hstore]
    have hfix : (fun r => if r.id == id then mergeUpdate b none r else r) q = q := by
      have : (q.id == id) = false := by simp [hne]
      simp [this]
    rw [← hfix]
    exact List.mem_map_of_mem _ hq

/-- Witness for C8 on a one-record store. -/
theorem put_no_file_merges_and_keeps_image_witness :
    findById [sampleImaged] 1 = some sampleImaged ∧
    ∃ u, (putProducts1 ⟨[sampleImaged], []⟩ 1 sampleBody none).2
          = Response.ok u ∧ u.image = sampleImaged.image := by
  refine ⟨rfl, ?_⟩
  obtain ⟨u, h1, -, -, himg, -⟩ :=
    put_no_file_merges_and_keeps_image "http" "localhost:3000"
      ⟨[sampleImaged], []⟩ 1 sampleBody sampleImaged rfl
  exact ⟨u, h1, himg⟩

/-- C10: a `PUT /products/:id` that carries a file but names an unknown id
answers 404 and creates no record, yet multer has already written the upload
into the uploads directory and the handler never removes it: the state keeps
an orphaned file. Holds in both variants. -/
theorem put_file_unknown_id_orphan (protocol host : String) (s : ServerState)
    (id : Nat) (b : Body) (f : ReqFile)
    (h : findById s.store id = none) :
    (putProducts2 protocol host s id b (some f)).2 =
      Response.notFound "Product not found" ∧
    (putProducts2 protocol host s id b (some f)).1.store = s.store ∧
    (putProducts2 protocol host s id b (some f)).1.files =
      uploadPath f :: s.files ∧
    (putProducts1 s id b (some f)).2 = Response.notFound "Product not found" ∧
    uploadPath f ∈ (putProducts1 s id b (some f)).1.files := by
  have h0 := findByIdAndUpdate_none s.store id
    (mergeUpdate b (some (uploadPath f))) h
  refine ⟨?_, ?_, ?_, ?_, ?_⟩ <;>
    simp [putProducts1, putProducts2, h, h0, storeFile]

/-- Witness for C10 at an empty store with an upload. -/
theorem put_file_unknown_id_orphan_witness :
    findById ([] : List Product) 9 = none ∧
    (putProducts2 "http" "localhost:3000" ⟨[], []⟩ 9 sampleBody
        (some sampleFile)).1.files = uploadPath sampleFile :: [] :=
  ⟨rfl, (put_file_unknown_id_orphan "http" "localhost:3000" ⟨[], []⟩ 9
    sampleBody sampleFile rfl).2.2.1⟩

/-- An absolute URL is never equal to the relative path it extends: the
`://` separator alone makes it strictly longer. -/
theorem absUrl_ne_self (protocol host rel : String) :
    absUrl protocol host rel ≠ rel := by
  intro heq
  have hlen := congrArg String.length heq
  simp [absUrl, String.length_append] at hlen
  exact absurd hlen.1.2 (by decide)

/-- The absolute-URL rewrite fixes exactly the records that carry no
image. -/
theorem rewriteAbs_eq_self_iff (protocol host : String) (p : Product) :
    rewriteAbs protocol host p = p ↔ p.image = none := by
  cases p with
  | mk i n pr d img =>
      cases img with
      | none => simp [rewriteAbs]
      | some rel =>
          simp [rewriteAbs]
          exact absUrl_ne_self protocol host rel

/-- Mapping the absolute-URL rewrite over a store is the identity exactly
when no record has an image. -/
theorem map_rewriteAbs_eq_self_iff (protocol host : String)
    (store : List Product) :
    store.map (rewriteAbs protocol host) = store ↔
      ∀ p ∈ store, p.image = none := by
  induction store with
  | nil => simp
  | cons p rest ih =>
      simp only [List.map_cons, List.cons.injEq, List.mem_cons]
      constructor
      · rintro ⟨h1, h2⟩ q hq
        rcases hq with rfl | hq
        · exact (rewriteAbs_eq_self_iff protocol host q).mp h1
        · exact (ih.mp h2) q hq
      · intro hall
        exact ⟨(rewriteAbs_eq_self_iff protocol host p).mpr (hall p (Or.inl rfl)),
               ih.mpr (fun q hq => hall q (Or.inr hq))⟩

/-- Counterexample for C1: the first variant's `GET /products` handler does
not rewrite `image` to an absolute URL — on a store with one imaged record
its response differs from the absolute-URL-rewritten records. -/
theorem get1_returns_relative_image :
    getProducts1 [sampleImaged] ≠
      Response.ok [rewriteAbs "http" "localhost:3000" sampleImaged] := by
  decide

/-- C1 amended, for the second variant's `GET /products`: the response is
always 200, with one returned record per stored record, identical to it in
`id`/`name`/`price`/`description`; the returned `image` is
`protocol://host` prepended to the stored relative path when the stored
record has one, and null when it does not. The stored records themselves
are not modified (the response is built from fresh objects). -/
theorem get2_rewrites_images (protocol host : String)
    (store : List Product) :
    ∃ out, getProducts2 protocol host store = Response.ok out ∧
      List.Forall₂ (fun stored ret =>
        ret.id = stored.id ∧ ret.name = stored.name ∧
        ret.price = stored.price ∧ ret.description = stored.description ∧
        (∀ rel, stored.image = some rel →
          ret.image = some (protocol ++ "://" ++ host ++ rel)) ∧
        (stored.image = none → ret.image = none)) store out := by
  refine ⟨store.map (rewriteAbs protocol host), rfl, ?_⟩
  induction store with
  | nil => simp
  | cons p rest ih =>
      refine List.Forall₂.cons ⟨rfl, rfl, rfl, rfl, ?_, ?_⟩ ih
      · intro rel hrel
        simp [rewriteAbs, hrel, absUrl]
      · intro hnone
        simp [rewriteAbs, hnone]

/-- Counterexample for C9: on a store holding one record with an image the
two variants' `GET /products` responses differ. -/
theorem get_variants_differ :
    getProducts1 [sampleImaged] ≠
      getProducts2 "http" "localhost:3000" [sampleImaged] := by
  decide

/-- C9 amended: the two variants' `GET /products` responses agree precisely
when no stored record has an image; a record with an image is returned with
its stored relative path by the first variant but with an absolute URL by
the second. -/
theorem get_variants_agree_iff (protocol host : String)
    (store : List Product) :
    getProducts1 store = getProducts2 protocol host store ↔
      ∀ p ∈ store, p.image = none := by
  simp only [getProducts1, getProducts2, Response.ok.injEq]
  rw [eq_comm]
  exact map_rewriteAbs_eq_self_iff protocol host store

/-- Counterexample for C2: the first variant's delete removes the record and
answers 200, but never attempts to delete the associated image file — the
file is still in the uploads directory afterwards, though an attempted
unlink would have erased it. -/
theorem delete1_leaves_image_file :
    "/uploads/a.png" ∈
      (deleteProducts1 ⟨[sampleImaged], ["/uploads/a.png"]⟩ 1).1.files ∧
    (deleteProducts1 ⟨[sampleImaged], ["/uploads/a.png"]⟩ 1).1.files ≠
      (["/uploads/a.png"] : List String).erase "/uploads/a.png" := by
  decide

/-- C2 amended: in the second variant, deleting an existing record answers
200 with the confirmation message, removes the record from the collection,
and best-effort deletes its image file (the file is erased from the uploads
directory when the record has one); the first variant also removes the
record and answers 200, but leaves the uploads directory untouched. -/
theorem delete_existing_removes_record_and_file (s : ServerState) (id : Nat)
    (p : Product) (h : findById s.store id = some p) :
    (deleteProducts2 s id).2 = Response.ok "Product deleted successfully" ∧
    (∀ q ∈ (deleteProducts2 s id).1.store, q.id ≠ id) ∧
    (∀ img, p.image = some img →
      (deleteProducts2 s id).1.files = s.files.erase img) ∧
    (p.image = none → (deleteProducts2 s id).1.files = s.files) ∧
    (deleteProducts1 s id).2 = Response.ok "Product deleted successfully" ∧
    (∀ q ∈ (deleteProducts1 s id).1.store, q.id ≠ id) ∧
    (deleteProducts1 s id).1.files = s.files := by
  refine ⟨?_, ?_, ?_, ?_, ?_, ?_, ?_⟩
  · simp [deleteProducts2, h]
  · intro q hq
    simp [deleteProducts2, h, List.mem_filter] at hq
    exact hq.2
  · intro img himg
    simp [deleteProducts2, h, himg]
  · intro himg
    simp [deleteProducts2, h, himg]
  · simp [deleteProducts1, h]
  · intro q hq
    simp [deleteProducts1, h, List.mem_filter] at hq
    exact hq.2
  · simp [deleteProducts1, h]

/-- Witness for C2 (amended) on a one-record store whose file is present. -/
theorem delete_existing_removes_record_and_file_witness :
    findById [sampleImaged] 1 = some sampleImaged ∧
    (deleteProducts2 ⟨[sampleImaged], ["/uploads/a.png"]⟩ 1).2 =
      Response.ok "Product deleted successfully" := by
  refine ⟨rfl, ?_⟩
  exact (delete_existing_removes_record_and_file
    ⟨[sampleImaged], ["/uploads/a.png"]⟩ 1 sampleImaged rfl).1

/-- C3: in the first variant, which never imports `fs`, a `PUT` carrying a
new file and aimed at a record that has an old image answers 500 and leaves
the record un-updated — evaluating `fs.unlink` throws a `ReferenceError`
that the handler's try/catch turns into a 500 — while on the same input the
second variant completes the update and answers 200 with the updated
record. -/
theorem put1_crashes_on_old_image_cleanup :
    (putProducts1 ⟨[sampleImaged], ["/uploads/a.png"]⟩ 1 sampleBody
        (some sampleFile)).2 = Response.serverError ∧
    (putProducts1 ⟨[sampleImaged], ["/uploads/a.png"]⟩ 1 sampleBody
        (some sampleFile)).1.store = [sampleImaged] ∧
    (putProducts2 "http" "localhost:3000"
        ⟨[sampleImaged], ["/uploads/a.png"]⟩ 1 sampleBody
        (some sampleFile)).2 =
      Response.ok { id := 1, name := "Marker", price := 3,
                    description := "Red ink",
                    image := some "http://localhost:3000/uploads/5-b.png" } := by
  refine ⟨rfl, rfl, ?_⟩
  decide

end PaintServer
